import Mathlib

/-
  Verification development for the FHIR web application's data-access layer
  (src/lib/fhir-service.ts) and the view logic it feeds
  (src/components/patient-list.tsx, src/components/encounter-list.tsx).

  Modelling conventions:
  * FHIR resources are opaque JSON blobs to this client; the code never looks
    inside them except to count or relay them, so they are modelled by an
    abstract carrier (`Nat` identifiers).
  * A `fetch` call is modelled by its outcome `FetchResult`: either a network
    rejection or an HTTP response with a status code and an optional parsed
    body (`none` models a body on which `response.json()` throws).
  * Service functions are async but the app is single-threaded and every
    function awaits its requests in order, so each function is modelled as a
    pure function of the responses the server gives to the endpoints it hits.
    Within one service call the server is assumed to answer a given endpoint
    consistently (one `FetchResult` per endpoint).
  * JavaScript numbers occurring in this code are integers (counts, totals,
    page numbers), modelled by `Int` so that the sentinel `-1` and arbitrary
    server-reported totals are representable.
-/

namespace FhirApp

/-- A FHIR resource is opaque to the client; the code only relays it. -/
abbrev Resource := Nat

/-- A bundle link object (`data.link`); opaque to the pagination logic. -/
abbrev Link := String

/-- One element of `data.entry`: an envelope holding a `resource` field. -/
structure BundleEntry where
  resource : Resource
deriving DecidableEq, Repr

/-- A FHIR Bundle as the client reads it: `data.total` is `some n` exactly when
the JSON `total` field is present and numeric (the code tests
`typeof data.total === "number"`), `data.entry` and `data.link` are optional
arrays (the code reads them with `data.entry?.…` and `data.link || []`). -/
structure Bundle where
  total : Option Int := none
  entry : Option (List BundleEntry) := none
  link : Option (List Link) := none
deriving DecidableEq, Repr

/-- Outcome of one `fetch` call: `failure` models a rejected promise (network
failure), `response status body` an HTTP response; `body = none` models a
response whose JSON parsing throws. -/
inductive FetchResult (α : Type) where
  | failure : FetchResult α
  | response (status : Nat) (body : Option α) : FetchResult α
deriving DecidableEq, Repr

/-- `response.ok` of the fetch API: status in the range 200-299. -/
def respOk (status : Nat) : Bool := 200 ≤ status && status < 300

/-- The distinguishable failures a service function can throw: a thrown
`HTTP error ${status}` message, a network/JSON failure, and the dedicated
`Patient with ID ${id} not found` message of `fetchPatientById`. -/
inductive FhirError where
  | network : FhirError
  | parse : FhirError
  | http (status : Nat) : FhirError
  | patientNotFound (id : String) : FhirError
deriving DecidableEq, Repr

/-- `data.entry?.map((entry) => entry.resource) || []` (used by every bundle
reader in fhir-service.ts). -/
def extractResources (data : Bundle) : List Resource :=
  (data.entry.map (fun l => l.map BundleEntry.resource)).getD []

/-- `typeof data.total === "number" ? data.total : 0`. -/
def reportedTotal (data : Bundle) : Int := data.total.getD 0

/-! ### fetchPatientCount (fhir-service.ts lines 1-31) -/

/-- The body of `fetchPatientCount`'s `try` block: GET `/Patient?_summary=count`,
throw on a non-ok status, read the numeric `total` field (0 if missing or
non-numeric). -/
def fetchPatientCountAttempt (res : FetchResult Bundle) : Except FhirError Int :=
  match res with
  | .failure => .error .network
  | .response status body =>
    if respOk status then
      match body with
      | none => .error .parse
      | some data => .ok (reportedTotal data)
    else .error (.http status)

/-- `fetchPatientCount`: the surrounding `catch` converts every failure into
the sentinel `-1`; the function never throws to its caller. -/
def fetchPatientCount (res : FetchResult Bundle) : Int :=
  match fetchPatientCountAttempt res with
  | .ok n => n
  | .error _ => -1

/-! ### fetchPatients (fhir-service.ts lines 37-118) -/

/-- The responses the server gives to the two Patient endpoints one
`fetchPatients` call can hit. -/
structure FhirEnv where
  /-- response to GET `{server}/Patient?_summary=count` -/
  summaryCount : FetchResult Bundle
  /-- response to the paged GET `{server}/Patient?_sort=…&_count=…&…` -/
  pageQuery : FetchResult Bundle
deriving DecidableEq, Repr

/-- Lines 47-50: `if (!pageSize) { pageSize = await fetchPatientCount(serverUrl) }`.
The argument is `none` when the caller omits `pageSize` (JS `undefined`); both
`undefined` and `0` are falsy, so both trigger resolution through the count
endpoint. -/
def effectivePageSize (env : FhirEnv) (pageSizeArg : Option Int) : Int :=
  match pageSizeArg with
  | none => fetchPatientCount env.summaryCount
  | some n => if n = 0 then fetchPatientCount env.summaryCount else n

/-- The uniform paged result shape
`{patients, total, links, pageSize, pageNumber, totalPages}`. -/
structure PagedResult where
  patients : List Resource
  total : Int
  links : List Link
  pageSize : Int
  pageNumber : Int
  totalPages : Int
deriving DecidableEq, Repr

/-- `Math.ceil(t / s)` on integer operands for a positive divisor: JavaScript
divides exactly and takes the ceiling; on integers with `0 < s` that is
`-⌊-t / s⌋`, here written with integer division (floor division for a positive
divisor). `mathCeilDiv_eq_ceil` below proves it equal to the ceiling of the
exact rational quotient whenever `0 < s`, which is the only regime the
application exercises (`totalPages` is meaningless on a non-positive page
size, where JavaScript would produce an infinity). -/
def mathCeilDiv (t s : Int) : Int := -((-t) / s)

/-- Lines 89-94 and 241-246, the estimation fallback shared verbatim by
`fetchPatients` and `searchPatients`:
`total = (pageNumber - 1) * pageSize + patients.length`, plus one more when the
page came back full (`patients.length === pageSize`). -/
def estimateTotal (pageNumber pageSize : Int) (numPatients : Nat) : Int :=
  let t := (pageNumber - 1) * pageSize + numPatients
  if (numPatients : Int) = pageSize then t + 1 else t

/-- Lines 79-97: the total reconciliation of `fetchPatients`. When the server
reports `total === 0` while returning patients, re-query the count endpoint;
use its value if positive, otherwise fall back to the estimate. -/
def reconcileFetchTotal (env : FhirEnv) (reported : Int) (numPatients : Nat)
    (pageNumber pageSize : Int) : Int :=
  if reported = 0 ∧ 0 < numPatients then
    let accurateTotal := fetchPatientCount env.summaryCount
    if 0 < accurateTotal then accurateTotal
    else estimateTotal pageNumber pageSize numPatients
  else reported

/-- Lines 236-248: the total reconciliation of `searchPatients`. Unlike
`fetchPatients` it never re-queries the count endpoint: it goes straight to the
estimation fallback. -/
def reconcileSearchTotal (reported : Int) (numPatients : Nat)
    (pageNumber pageSize : Int) : Int :=
  if reported = 0 ∧ 0 < numPatients then estimateTotal pageNumber pageSize numPatients
  else reported

/-- Lines 76-113: response shaping of `fetchPatients` once a parsed bundle is
in hand (`pageSize` is the already-resolved effective page size). -/
def processPatientBundle (env : FhirEnv) (pageSize pageNumber : Int)
    (data : Bundle) : PagedResult :=
  let patients := extractResources data
  let total := reconcileFetchTotal env (reportedTotal data) patients.length pageNumber pageSize
  { patients := patients
    total := total
    links := data.link.getD []
    pageSize := pageSize
    pageNumber := pageNumber
    totalPages := max 1 (mathCeilDiv total pageSize) }

/-- `fetchPatients` (lines 37-118): resolve the page size, issue the paged
query, throw `HTTP error ${status}` on a non-ok response, otherwise shape the
bundle; the final `catch` rethrows, so every failure propagates. -/
def fetchPatients (env : FhirEnv) (pageSizeArg : Option Int)
    (pageNumber : Int := 1) : Except FhirError PagedResult :=
  let pageSize := effectivePageSize env pageSizeArg
  match env.pageQuery with
  | .failure => .error .network
  | .response status body =>
    if respOk status then
      match body with
      | none => .error .parse
      | some data => .ok (processPatientBundle env pageSize pageNumber data)
    else .error (.http status)

/-! ### searchPatients (fhir-service.ts lines 176-270) -/

/-- The structured filter fields of `searchPatients`' first argument. A field
is `none` when absent (JS `undefined`); the empty string models a blank value.
Both are falsy, so both are omitted from the query. -/
structure SearchParams where
  name : Option String := none
  given : Option String := none
  family : Option String := none
  identifier : Option String := none
  gender : Option String := none
  birthdate : Option String := none
  phone : Option String := none
  email : Option String := none
  address : Option String := none
deriving DecidableEq, Repr

/-- One `if (searchParams.f) queryParams.append(key, searchParams.f)` line:
the pair is appended only when the field is present and non-empty (JS string
truthiness). -/
def appendIf (key : String) (field : Option String) : List (String × String) :=
  match field with
  | none => []
  | some s => if s = "" then [] else [(key, s)]

/-- Lines 187-195: the filter portion of the query, in source order. -/
def searchFilterParams (sp : SearchParams) : List (String × String) :=
  appendIf "name" sp.name ++
  appendIf "given" sp.given ++
  appendIf "family" sp.family ++
  appendIf "identifier" sp.identifier ++
  appendIf "gender" sp.gender ++
  appendIf "birthdate" sp.birthdate ++
  appendIf "phone" sp.phone ++
  appendIf "email" sp.email ++
  appendIf "address" sp.address

/-- Lines 185-210: the full query-parameter list `searchPatients` builds
(filters, then `_count`, `_getpagesoffset` with
`offset = (pageNumber - 1) * pageSize`, `_sort`, `_total=accurate`). -/
def searchPatientsQuery (sp : SearchParams) (pageSize pageNumber : Int)
    (sortParam : String) : List (String × String) :=
  searchFilterParams sp ++
  [("_count", toString pageSize),
   ("_getpagesoffset", toString ((pageNumber - 1) * pageSize)),
   ("_sort", sortParam),
   ("_total", "accurate")]

/-- Lines 233-265: response shaping of `searchPatients`; identical to
`fetchPatients` except that the reconciliation never consults the count
endpoint (the echoed `searchParams` field of the result is omitted: the code
returns the argument unchanged). -/
def processSearchBundle (pageSize pageNumber : Int) (data : Bundle) : PagedResult :=
  let patients := extractResources data
  let total := reconcileSearchTotal (reportedTotal data) patients.length pageNumber pageSize
  { patients := patients
    total := total
    links := data.link.getD []
    pageSize := pageSize
    pageNumber := pageNumber
    totalPages := max 1 (mathCeilDiv total pageSize) }

/-- `searchPatients` (lines 176-270): issue the search query (the defaults are
`pageSize = 100`, `pageNumber = 1`), throw on a non-ok status, otherwise shape
the bundle; the final `catch` rethrows, so every failure propagates. `res` is
the server's response to the built search URL. -/
def searchPatients (res : FetchResult Bundle) (pageSize : Int := 100)
    (pageNumber : Int := 1) : Except FhirError PagedResult :=
  match res with
  | .failure => .error .network
  | .response status body =>
    if respOk status then
      match body with
      | none => .error .parse
      | some data => .ok (processSearchBundle pageSize pageNumber data)
    else .error (.http status)

/-! ### The request line of fetchPatients (lines 51-53) -/

/-- Line 51: `const offset = (pageNumber - 1) * pageSize` with the resolved
effective page size. -/
def fetchPatientsOffsetParam (env : FhirEnv) (pageSizeArg : Option Int)
    (pageNumber : Int) : Int :=
  (pageNumber - 1) * effectivePageSize env pageSizeArg

/-- The `_count` value of the URL built on line 53: the resolved page size. -/
def fetchPatientsCountParam (env : FhirEnv) (pageSizeArg : Option Int) : Int :=
  effectivePageSize env pageSizeArg

/-- Lines 51-53: the query parameters of the URL
`{server}/Patient?_sort=…&_count=…&_getpagesoffset=…&_total=accurate`. -/
def fetchPatientsQuery (env : FhirEnv) (pageSizeArg : Option Int)
    (pageNumber : Int) (sortParam : String) : List (String × String) :=
  [("_sort", sortParam),
   ("_count", toString (fetchPatientsCountParam env pageSizeArg)),
   ("_getpagesoffset", toString (fetchPatientsOffsetParam env pageSizeArg pageNumber)),
   ("_total", "accurate")]

/-! ### The remaining service functions (fhir-service.ts lines 123-420) -/

/-- The shared shape of the simple bundle readers (`fetchConditionsForEncounter`
lines 305-325, `fetchAllConditions`' page request lines 378-390,
`fetchOrganizations` lines 400-420): throw `HTTP error ${status}` on any non-ok
response, otherwise extract the entry resources; the `catch` rethrows. -/
def getBundleEntries (res : FetchResult Bundle) : Except FhirError (List Resource) :=
  match res with
  | .failure => .error .network
  | .response status body =>
    if respOk status then
      match body with
      | none => .error .parse
      | some data => .ok (extractResources data)
    else .error (.http status)

/-- `createPatient` (lines 123-144): POST `/Patient`; throw on non-ok status,
otherwise return the created resource; the `catch` rethrows. -/
def createPatient (res : FetchResult Resource) : Except FhirError Resource :=
  match res with
  | .failure => .error .network
  | .response status body =>
    if respOk status then
      match body with
      | none => .error .parse
      | some created => .ok created
    else .error (.http status)

/-- `fetchPatientById` (lines 149-171): GET `/Patient/{id}`; a 404 throws the
dedicated `Patient with ID ${id} not found` error, any other non-ok status the
generic `HTTP error`; the `catch` rethrows. -/
def fetchPatientById (id : String) (res : FetchResult Resource) :
    Except FhirError Resource :=
  match res with
  | .failure => .error .network
  | .response status body =>
    if respOk status then
      match body with
      | none => .error .parse
      | some patient => .ok patient
    else if status = 404 then .error (.patientNotFound id)
    else .error (.http status)

/-- The `try` body shared by the two tolerated lookups (`fetchLatestEncounters`
lines 275-294, `fetchConditionsForPatient` lines 330-349): a 404 returns `[]`
directly, any other non-ok status throws. -/
def getBundleEntries404Empty (res : FetchResult Bundle) :
    Except FhirError (List Resource) :=
  match res with
  | .failure => .error .network
  | .response status body =>
    if respOk status then
      match body with
      | none => .error .parse
      | some data => .ok (extractResources data)
    else if status = 404 then .ok []
    else .error (.http status)

/-- `fetchLatestEncounters` (lines 275-300): the surrounding `catch` returns
`[]` for every remaining failure ("Return empty array instead of throwing for
non-critical errors"), so the function never throws. The `count` argument only
affects the URL and is omitted. -/
def fetchLatestEncounters (res : FetchResult Bundle) : List Resource :=
  match getBundleEntries404Empty res with
  | .ok l => l
  | .error _ => []

/-- `fetchConditionsForEncounter` (lines 305-325): no 404 tolerance; its
`catch` rethrows, so every failure propagates. -/
def fetchConditionsForEncounter (res : FetchResult Bundle) :
    Except FhirError (List Resource) :=
  getBundleEntries res

/-- `fetchConditionsForPatient` (lines 330-355): same tolerated shape as
`fetchLatestEncounters`; the `catch` returns `[]` for every failure. -/
def fetchConditionsForPatient (res : FetchResult Bundle) : List Resource :=
  match getBundleEntries404Empty res with
  | .ok l => l
  | .error _ => []

/-- `fetchAllConditions` (lines 361-395): when `limit` is strictly `undefined`,
first GET `/Condition?_summary=count` and throw on its non-ok status (this
resolution, unlike `fetchPatientCount`, is not shielded by a catch); then issue
the page request. The resolved limit only affects the URL. The final `catch`
rethrows. -/
def fetchAllConditions (countRes pageRes : FetchResult Bundle)
    (limit : Option Int) : Except FhirError (List Resource) :=
  match limit with
  | some _ => getBundleEntries pageRes
  | none =>
    match countRes with
    | .failure => .error .network
    | .response status body =>
      if respOk status then
        match body with
        | none => .error .parse
        | some _ => getBundleEntries pageRes
      else .error (.http status)

/-- `fetchOrganizations` (lines 400-420): plain GET `/Organization`; failures
propagate. -/
def fetchOrganizations (res : FetchResult Bundle) : Except FhirError (List Resource) :=
  getBundleEntries res

/-! ### EncounterList (src/components/encounter-list.tsx)

The component owns `expandedEncounter : string | null`, `conditions : {}` (a
map from encounter id to the fetched condition list) and `loading : {}` (a map
from encounter id to a boolean). The app is single-threaded and run-to-
completion, so one invocation of the `toggleEncounter` handler — including the
awaited fetch and the state updates of its `try`/`catch`/`finally` — is
modelled as one atomic step. -/

/-- The component state of `EncounterList` (lines 12-14). `conditions` maps an
encounter id to the cached list (`none` = key absent, which is falsy in the
guard `!conditions[encounterId]`; a cached `[]` is a truthy JS array).
`loading` maps to `false` when the key is absent (`undefined` is falsy). -/
structure EncounterListState where
  expandedEncounter : Option String
  conditions : String → Option (List Resource)
  loading : String → Bool

/-- `useState(null)`, `useState({})`, `useState({})`. -/
def initialEncounterListState : EncounterListState :=
  { expandedEncounter := none
    conditions := fun _ => none
    loading := fun _ => false }

/-- `toggleEncounter` (lines 16-37). `conditionsServer` gives the outcome of
`fetchConditionsForEncounter` for each encounter id; on success the result is
cached, on a thrown error the `catch` caches `[]` — either way `finally`
leaves `loading[encounterId] = false`. The returned flag records whether this
step issued a fetch. -/
def toggleEncounter (conditionsServer : String → Except FhirError (List Resource))
    (s : EncounterListState) (encounterId : String) :
    EncounterListState × Bool :=
  if s.expandedEncounter = some encounterId then
    ({ s with expandedEncounter := none }, false)
  else
    if s.conditions encounterId = none ∧ s.loading encounterId = false then
      ({ expandedEncounter := some encounterId
         conditions := fun k =>
           if k = encounterId then
             some (match conditionsServer encounterId with
                   | .ok l => l
                   | .error _ => [])
           else s.conditions k
         loading := fun k => if k = encounterId then false else s.loading k },
       true)
    else
      ({ s with expandedEncounter := some encounterId }, false)

/-- Run a sequence of row toggles, recording the encounter ids for which a
conditions fetch was issued, in order. -/
def fetchCalls (conditionsServer : String → Except FhirError (List Resource))
    (s : EncounterListState) : List String → List String
  | [] => []
  | encounterId :: rest =>
    let step := toggleEncounter conditionsServer s encounterId
    (if step.2 then [encounterId] else []) ++ fetchCalls conditionsServer step.1 rest

/-! ### PatientList sorting (src/components/patient-list.tsx lines 30-32, 55-57, 74-88) -/

/-- The logical sort fields (`type SortField`). -/
inductive SortField where
  | name | gender | birthDate | lastUpdated | id
deriving DecidableEq, Repr

/-- `type SortDirection = "asc" | "desc"`. -/
inductive SortDirection where
  | asc | desc
deriving DecidableEq, Repr

/-- The sorting state `(sortField, sortDirection)`; its initial value is
`("lastUpdated", "desc")`. -/
structure SortState where
  sortField : SortField
  sortDirection : SortDirection
deriving DecidableEq, Repr

/-- `handleSort` (lines 74-88), restricted to the sort state it updates:
clicking the current field toggles the direction, clicking a different field
selects it and resets the direction to `"asc"`. -/
def handleSort (s : SortState) (field : SortField) : SortState :=
  if s.sortField = field then
    { s with sortDirection := if s.sortDirection = .asc then .desc else .asc }
  else
    { sortField := field, sortDirection := .asc }

/-! ### The conditions fetch issued by EncounterList (claim C5)

`fetchConditionsForEncounter(encounterId, serverUrl)` builds the URL
`${serverUrl}/Condition?encounter=${encounterId}` (line 308). The call site in
`toggleEncounter` (encounter-list.tsx line 28) is
`fetchConditionsForEncounter(encounterId)`: the second argument is omitted, so
at run time `serverUrl` is `undefined` even though the declared parameter type
is `string`. A JS template literal renders `undefined` as the text
`"undefined"`. -/

/-- JS template-literal interpolation of a possibly-undefined string. -/
def jsInterp (s : Option String) : String :=
  match s with
  | some v => v
  | none => "undefined"

/-- Line 308: the URL `fetchConditionsForEncounter` builds from its arguments
(`serverUrl = none` models a call that omits the argument). -/
def fetchConditionsForEncounterUrl (encounterId : String)
    (serverUrl : Option String) : String :=
  jsInterp serverUrl ++ "/Condition?encounter=" ++ encounterId

/-- The URL produced by `toggleEncounter`'s call
`fetchConditionsForEncounter(encounterId)` (encounter-list.tsx line 28):
no server URL is supplied. -/
def toggleEncounterConditionsUrl (encounterId : String) : String :=
  fetchConditionsForEncounterUrl encounterId none

/-! ### Spec-side definitions

The following definitions transcribe the specification's own words (spec.md
§4.2 and §8, and the claims derived from them); they deliberately do not refer
to the code-derived reconciliation functions so that the refinement theorems
below genuinely compare the two. -/

/-- The spec's description of `fetchPatientCount`'s outcome: the
server-reported total when the response is OK and carries a numeric `total`
field, `0` when that field is missing or non-numeric, and the sentinel `-1` on
any HTTP error status or network failure (an unparseable body surfaces as a
thrown error and is grouped with network failure). -/
def specPatientCountResult (res : FetchResult Bundle) : Int :=
  match res with
  | .failure => -1
  | .response _ none => -1
  | .response status (some data) =>
    if respOk status then
      match data.total with
      | some n => n
      | none => 0
    else -1

/-- The spec's recovery policy (§4.2 step 3) for a reported total of zero with
a non-empty resource list: prefer the count-only endpoint's total if positive;
otherwise estimate `(pageNumber − 1) × pageSize + resources.length`, adding one
extra when the page came back full. Any other reported total is trusted. -/
def specReconciledTotal (countEndpointTotal reported : Int) (numResources : Nat)
    (pageNumber pageSize : Int) : Int :=
  if reported = 0 ∧ 0 < numResources then
    if 0 < countEndpointTotal then countEndpointTotal
    else
      let estimate := (pageNumber - 1) * pageSize + numResources
      if (numResources : Int) = pageSize then estimate + 1 else estimate
  else reported

/-- The estimation-only policy: the same as `specReconciledTotal` but never
consulting the count endpoint (what `searchPatients` actually implements). -/
def specEstimateOnlyTotal (reported : Int) (numResources : Nat)
    (pageNumber pageSize : Int) : Int :=
  if reported = 0 ∧ 0 < numResources then
    let estimate := (pageNumber - 1) * pageSize + numResources
    if (numResources : Int) = pageSize then estimate + 1 else estimate
  else reported

/-- A filter field that is absent or empty (both JS-falsy, hence omitted from
the query). -/
def blankField (field : Option String) : Prop := field = none ∨ field = some ""

/-! ### Concrete fixtures used by witnesses and counterexamples -/

/-- Ten bundle entries, as in the spec's §8 scenario page. -/
def bundleEntries10 : List BundleEntry := (List.range 10).map (fun n => ⟨n⟩)

/-- A bundle reporting `total = 0` while carrying ten entries (the
inconsistent server response of §4.2/§8). -/
def bundleZeroTotal10 : Bundle := { total := some 0, entry := some bundleEntries10 }

/-- The §8 scenario server: paged query says `total = 0` with ten entries, the
count endpoint says `total = 47`. -/
def envScenario47 : FhirEnv :=
  { summaryCount := .response 200 (some { total := some 47 })
    pageQuery := .response 200 (some bundleZeroTotal10) }

/-- A server whose count endpoint reports a positive total (3) smaller than
what page 2 with ten returned resources implies. -/
def envCount3 : FhirEnv :=
  { summaryCount := .response 200 (some { total := some 3 })
    pageQuery := .response 200 (some bundleZeroTotal10) }

/-- A server whose count endpoint reports `total = 0` while the paged query
still returns ten entries, forcing the estimation fallback. -/
def envCountZero : FhirEnv :=
  { summaryCount := .response 200 (some { total := some 0 })
    pageQuery := .response 200 (some bundleZeroTotal10) }

/-- The result of `fetchPatients envScenario47 (some 10) 2`: the reconciled
total 47 and `totalPages = 5` of the §8 scenario. -/
def pagedScenario47 : PagedResult :=
  { patients := List.range 10
    total := 47
    links := []
    pageSize := 10
    pageNumber := 2
    totalPages := 5 }

/-- The result of `fetchPatients envCountZero (some 10) 2`: the estimation
fallback gives `(2 − 1) × 10 + 10`, plus one because the page was full. -/
def pagedEstimate21 : PagedResult :=
  { patients := List.range 10
    total := 21
    links := []
    pageSize := 10
    pageNumber := 2
    totalPages := 3 }

/-- An uneventful successful response, used where some endpoint's answer is
irrelevant to the property at hand. -/
def okEmptyBundle : FetchResult Bundle := .response 200 (some {})

/-- A search-parameter object carrying only an identifier. -/
def identifierOnlyParams : SearchParams := { identifier := some "MRN-123" }

/-- The behaviour of every data-access function upon receiving an HTTP
response with error status `st` (claim C4, as amended): the seven critical
functions throw a distinguishable error, the two tolerated lookups return the
empty list for every error status, and `fetchPatientCount` returns the
sentinel `-1`. `cr` is the (arbitrary) answer of any other endpoint the
function consults, `body`/`rb` the (never reached) body of the failing
response. -/
def errorStatusBehaviour (st : Nat) (cr : FetchResult Bundle)
    (body : Option Bundle) (rb : Option Resource) (id : String)
    (psArg : Option Int) (ps p : Int) : Prop :=
  fetchPatients ⟨cr, .response st body⟩ psArg p = .error (.http st) ∧
  searchPatients (.response st body) ps p = .error (.http st) ∧
  createPatient (.response st rb) = .error (.http st) ∧
  fetchPatientById id (.response st rb) =
    .error (if st = 404 then .patientNotFound id else .http st) ∧
  fetchConditionsForEncounter (.response st body) = .error (.http st) ∧
  fetchAllConditions (.response st body) cr none = .error (.http st) ∧
  fetchAllConditions cr (.response st body) (some 5) = .error (.http st) ∧
  fetchOrganizations (.response st body) = .error (.http st) ∧
  fetchLatestEncounters (.response st body) = [] ∧
  fetchConditionsForPatient (.response st body) = [] ∧
  fetchPatientCount (.response st body) = -1

/-! ## Helper lemmas -/

/-- For a positive divisor, `mathCeilDiv` is the ceiling of the exact rational
quotient, i.e. JavaScript's `Math.ceil(t / s)`. -/
theorem mathCeilDiv_eq_ceil (t s : Int) (hs : 0 < s) :
    mathCeilDiv t s = ⌈(t : ℚ) / (s : ℚ)⌉ := by
  obtain ⟨n, rfl⟩ : ∃ n : ℕ, (n : ℤ) = s := ⟨s.toNat, Int.toNat_of_nonneg hs.le⟩
  unfold mathCeilDiv
  rw [← Rat.floor_intCast_div_natCast (-t) n, ← Int.ceil_neg]
  congr 1
  push_cast
  ring

/-- Inversion for a successful `fetchPatients`: the paged query answered with
an ok status and a parsed bundle, and the result is its shaping. -/
theorem fetchPatients_ok {env : FhirEnv} {psArg : Option Int} {p : Int}
    {r : PagedResult} (h : fetchPatients env psArg p = .ok r) :
    ∃ st data, env.pageQuery = .response st (some data) ∧ respOk st = true ∧
      r = processPatientBundle env (effectivePageSize env psArg) p data := by
  unfold fetchPatients at h
  cases hq : env.pageQuery with
  | failure => rw [hq] at h; simp at h
  | response st body =>
    rw [hq] at h
    dsimp only at h
    split at h
    · cases body with
      | none => simp at h
      | some data =>
        simp only [Except.ok.injEq] at h
        rename_i hok
        exact ⟨st, data, rfl, hok, h.symm⟩
    · simp at h

/-- Inversion for a successful `searchPatients`. -/
theorem searchPatients_ok {res : FetchResult Bundle} {ps p : Int}
    {r : PagedResult} (h : searchPatients res ps p = .ok r) :
    ∃ st data, res = .response st (some data) ∧ respOk st = true ∧
      r = processSearchBundle ps p data := by
  unfold searchPatients at h
  cases res with
  | failure => simp at h
  | response st body =>
    dsimp only at h
    split at h
    · cases body with
      | none => simp at h
      | some data =>
        simp only [Except.ok.injEq] at h
        rename_i hok
        exact ⟨st, data, rfl, hok, h.symm⟩
    · simp at h

/-- The estimation fallback is at least `(pageNumber − 1) × pageSize + k`. -/
theorem estimateTotal_ge (p s : Int) (k : Nat) :
    (p - 1) * s + k ≤ estimateTotal p s k := by
  simp only [estimateTotal]
  split <;> omega

/-! ## Claim C10 -/

/-- C10: `fetchPatientCount` is total and never throws: it returns the
server-reported total when the response is OK with a numeric `total` field,
`0` when that field is missing or non-numeric, and the sentinel `-1` on any
HTTP error status or network/parse failure — exactly the spec-side description
`specPatientCountResult`. -/
theorem fetchPatientCount_matches_spec :
    ∀ res : FetchResult Bundle, fetchPatientCount res = specPatientCountResult res := by
  intro res
  cases res with
  | failure => rfl
  | response st body =>
    cases body with
    | none =>
      cases hok : respOk st <;>
        simp [fetchPatientCount, fetchPatientCountAttempt, specPatientCountResult, hok]
    | some data =>
      cases hok : respOk st with
      | false =>
        simp [fetchPatientCount, fetchPatientCountAttempt, specPatientCountResult, hok]
      | true =>
        cases ht : data.total <;>
          simp [fetchPatientCount, fetchPatientCountAttempt, specPatientCountResult,
            reportedTotal, hok, ht]

/-! ## Claim C8 -/

/-- C8: starting from any sort state, clicking the currently sorted field
twice returns the direction to its original value, and clicking a different
field selects it with the direction reset to ascending. -/
theorem handleSort_toggle_and_reset :
    ∀ (s : SortState) (field : SortField),
      (s.sortField = field →
        (handleSort (handleSort s field) field).sortDirection = s.sortDirection) ∧
      (s.sortField ≠ field →
        handleSort s field = { sortField := field, sortDirection := .asc }) := by
  intro s field
  constructor
  · intro h
    rcases s with ⟨f, d⟩
    cases h
    cases d <;> simp [handleSort]
  · intro h
    simp [handleSort, h]

/-- Witness for C8 at the component's initial state `(lastUpdated, desc)`:
clicking `lastUpdated` twice restores `desc`; clicking `name` instead resets
to `(name, asc)`. -/
theorem handleSort_toggle_and_reset_witness :
    ((⟨.lastUpdated, .desc⟩ : SortState).sortField = .lastUpdated ∧
      (handleSort (handleSort ⟨.lastUpdated, .desc⟩ .lastUpdated) .lastUpdated).sortDirection =
        .desc) ∧
    ((⟨.lastUpdated, .desc⟩ : SortState).sortField ≠ .name ∧
      handleSort ⟨.lastUpdated, .desc⟩ .name = { sortField := .name, sortDirection := .asc }) :=
  ⟨⟨rfl, (handleSort_toggle_and_reset ⟨.lastUpdated, .desc⟩ .lastUpdated).1 rfl⟩,
   ⟨by decide, (handleSort_toggle_and_reset ⟨.lastUpdated, .desc⟩ .name).2 (by decide)⟩⟩

/-! ## Claim C5 -/

/-- C5 (code bug evidence): the conditions fetch triggered by expanding an
encounter row passes no server URL — `toggleEncounter` calls
`fetchConditionsForEncounter(encounterId)` with its required `serverUrl`
parameter missing — so the request URL is built from the base `"undefined"`
rather than the active server. -/
theorem toggleEncounter_builds_undefined_base_url :
    toggleEncounterConditionsUrl "enc-1" = "undefined/Condition?encounter=enc-1" := by
  rfl

/-! ## Claim C1 -/

/-- `fetchPatients`' reconciliation is exactly the spec's full recovery
policy, with the count endpoint's answer in the preferred slot. -/
theorem reconcileFetchTotal_eq_spec (env : FhirEnv) (reported : Int)
    (num : Nat) (p s : Int) :
    reconcileFetchTotal env reported num p s =
      specReconciledTotal (fetchPatientCount env.summaryCount) reported num p s := rfl

/-- `searchPatients`' reconciliation is the estimation-only policy. -/
theorem reconcileSearchTotal_eq_spec (reported : Int) (num : Nat) (p s : Int) :
    reconcileSearchTotal reported num p s =
      specEstimateOnlyTotal reported num p s := rfl

/-- C1 counterexample: at the spec's own §8 inputs (reported total 0, ten
resources on page 2 of size 10, count endpoint answering 47), `searchPatients`
returns the estimate 21, while the claimed recovery policy — re-query the
count endpoint first and use its positive answer — prescribes 47. The claim is
false for `searchPatients`, which never re-queries the count endpoint. -/
theorem searchPatients_skips_count_endpoint :
    (searchPatients envScenario47.pageQuery 10 2).toOption.map PagedResult.total =
      some 21 ∧
    specReconciledTotal (fetchPatientCount envScenario47.summaryCount) 0 10 2 10 = 47 ∧
    (21 : Int) ≠ 47 := by decide

/-- C1 (as amended): on a zero reported total with a non-empty resource list,
`fetchPatients` applies the full recovery policy — count endpoint first, then
the page-based estimate — while `searchPatients` applies only the estimation
fallback, never re-querying the count endpoint. -/
theorem recovery_policy_per_function :
    (∀ (env : FhirEnv) (psArg : Option Int) (p : Int) (st : Nat) (data : Bundle),
      env.pageQuery = .response st (some data) → respOk st = true →
      (fetchPatients env psArg p).toOption.map PagedResult.total =
        some (specReconciledTotal (fetchPatientCount env.summaryCount)
          (reportedTotal data) (extractResources data).length p
          (effectivePageSize env psArg))) ∧
    (∀ (res : FetchResult Bundle) (ps p : Int) (st : Nat) (data : Bundle),
      res = .response st (some data) → respOk st = true →
      (searchPatients res ps p).toOption.map PagedResult.total =
        some (specEstimateOnlyTotal (reportedTotal data)
          (extractResources data).length p ps)) := by
  constructor
  · intro env psArg p st data hq hok
    unfold fetchPatients
    rw [hq]
    dsimp only
    rw [if_pos hok]
    simp [Except.toOption, processPatientBundle, reconcileFetchTotal_eq_spec]
  · intro res ps p st data hq hok
    subst hq
    unfold searchPatients
    dsimp only
    rw [if_pos hok]
    simp [Except.toOption, processSearchBundle, reconcileSearchTotal_eq_spec]

/-- C1 witness at the §8 scenario: `fetchPatients` follows the policy, which
there selects the count endpoint's 47. -/
theorem recovery_policy_per_function_witness :
    envScenario47.pageQuery = .response 200 (some bundleZeroTotal10) ∧
    respOk 200 = true ∧
    (fetchPatients envScenario47 (some 10) 2).toOption.map PagedResult.total =
      some (specReconciledTotal (fetchPatientCount envScenario47.summaryCount)
        (reportedTotal bundleZeroTotal10) (extractResources bundleZeroTotal10).length 2
        (effectivePageSize envScenario47 (some 10))) :=
  ⟨rfl, by decide,
   recovery_policy_per_function.1 envScenario47 (some 10) 2 200 bundleZeroTotal10
     rfl (by decide)⟩

/-! ## Claim C2 -/

/-- C2: every result a successful `fetchPatients` or `searchPatients` call
returns satisfies `totalPages = max(1, ceil(total / pageSize))` whenever its
page size is positive and its reconciled total non-negative (the ceiling taken
over the exact rational quotient). -/
theorem totalPages_eq_max_one_ceil :
    (∀ (env : FhirEnv) (psArg : Option Int) (p : Int) (r : PagedResult),
      fetchPatients env psArg p = .ok r → 0 < r.pageSize → 0 ≤ r.total →
      r.totalPages = max 1 ⌈(r.total : ℚ) / (r.pageSize : ℚ)⌉) ∧
    (∀ (res : FetchResult Bundle) (ps p : Int) (r : PagedResult),
      searchPatients res ps p = .ok r → 0 < r.pageSize → 0 ≤ r.total →
      r.totalPages = max 1 ⌈(r.total : ℚ) / (r.pageSize : ℚ)⌉) := by
  constructor
  · intro env psArg p r h hps _
    obtain ⟨st, data, hq, hok, rfl⟩ := fetchPatients_ok h
    dsimp only [processPatientBundle] at hps ⊢
    rw [mathCeilDiv_eq_ceil _ _ hps]
  · intro res ps p r h hps _
    obtain ⟨st, data, hq, hok, rfl⟩ := searchPatients_ok h
    dsimp only [processSearchBundle] at hps ⊢
    rw [mathCeilDiv_eq_ceil _ _ hps]

/-- C2 witness at the §8 scenario: total 47 at page size 10 gives
`totalPages = 5`. -/
theorem totalPages_eq_max_one_ceil_witness :
    fetchPatients envScenario47 (some 10) 2 = .ok pagedScenario47 ∧
    0 < pagedScenario47.pageSize ∧ 0 ≤ pagedScenario47.total ∧
    pagedScenario47.totalPages =
      max 1 ⌈(pagedScenario47.total : ℚ) / (pagedScenario47.pageSize : ℚ)⌉ :=
  ⟨by rfl, by decide, by decide,
   totalPages_eq_max_one_ceil.1 envScenario47 (some 10) 2 pagedScenario47
     (by rfl) (by decide) (by decide)⟩

/-! ## Claim C3 -/

/-- C3 counterexample: with the server reporting total 0 and ten resources on
page 2 of size 10 but the count endpoint answering 3, `fetchPatients` adopts
the positive count-endpoint total 3, which is below the claimed bound
`(2 − 1) × 10 + 10 = 20`. -/
theorem fetch_total_below_page_bound :
    (fetchPatients envCount3 (some 10) 2).toOption.map PagedResult.total = some 3 ∧
    ¬ (((2 : Int) - 1) * 10 + 10 ≤ 3) := by decide

/-- C3 (as amended): when the server reports total 0 with `k > 0` resources on
page `p`, the reconciled total is at least `(p − 1) × pageSize + k` for every
`searchPatients` call, and for every `fetchPatients` call in which the count
endpoint does not deliver a positive total; when it does, that total is used
as-is and may be smaller than the bound. -/
theorem reconciled_total_lower_bound :
    (∀ (env : FhirEnv) (psArg : Option Int) (p : Int) (st : Nat) (data : Bundle)
      (r : PagedResult),
      env.pageQuery = .response st (some data) → respOk st = true →
      reportedTotal data = 0 → 0 < (extractResources data).length →
      fetchPatientCount env.summaryCount ≤ 0 →
      fetchPatients env psArg p = .ok r →
      (p - 1) * r.pageSize + (extractResources data).length ≤ r.total) ∧
    (∀ (res : FetchResult Bundle) (ps p : Int) (st : Nat) (data : Bundle)
      (r : PagedResult),
      res = .response st (some data) → respOk st = true →
      reportedTotal data = 0 → 0 < (extractResources data).length →
      searchPatients res ps p = .ok r →
      (p - 1) * ps + (extractResources data).length ≤ r.total) := by
  constructor
  · intro env psArg p st data r hq hrep hk hcount h hfetch
    obtain ⟨st2, data2, hq2, hok2, rfl⟩ := fetchPatients_ok hfetch
    rw [hq] at hq2
    injection hq2 with hst hbody
    injection hbody with hdata
    subst hdata
    dsimp only [processPatientBundle]
    unfold reconcileFetchTotal
    rw [if_pos ⟨hk, hcount⟩]
    dsimp only
    rw [if_neg (not_lt.mpr h)]
    exact estimateTotal_ge _ _ _
  · intro res ps p st data r hq hok hrep hk hsearch
    obtain ⟨st2, data2, hq2, hok2, rfl⟩ := searchPatients_ok hsearch
    rw [hq] at hq2
    injection hq2 with hst hbody
    injection hbody with hdata
    subst hdata
    dsimp only [processSearchBundle]
    unfold reconcileSearchTotal
    rw [if_pos ⟨hrep, hk⟩]
    exact estimateTotal_ge _ _ _

/-- C3 witness: count endpoint answering 0 forces the estimate, and the
returned total 21 meets the bound 20. -/
theorem reconciled_total_lower_bound_witness :
    envCountZero.pageQuery = .response 200 (some bundleZeroTotal10) ∧
    respOk 200 = true ∧
    reportedTotal bundleZeroTotal10 = 0 ∧
    0 < (extractResources bundleZeroTotal10).length ∧
    fetchPatientCount envCountZero.summaryCount ≤ 0 ∧
    fetchPatients envCountZero (some 10) 2 = .ok pagedEstimate21 ∧
    ((2 : Int) - 1) * pagedEstimate21.pageSize +
        (extractResources bundleZeroTotal10).length ≤ pagedEstimate21.total :=
  ⟨rfl, by decide, by decide, by decide, by decide, by rfl,
   reconciled_total_lower_bound.1 envCountZero (some 10) 2 200 bundleZeroTotal10
     pagedEstimate21 rfl (by decide) (by decide) (by decide) (by decide) (by rfl)⟩

/-! ## Claim C4 -/

/-- C4 counterexample: a 500 response — which the claim says must propagate as
a distinguishable failure, its tolerance covering only 404 — is silently
swallowed by both tolerated lookups: each returns the empty list,
indistinguishable from the tolerated 404 outcome. -/
theorem tolerated_lookups_swallow_all_errors :
    fetchLatestEncounters (.response 500 (some bundleZeroTotal10)) = [] ∧
    fetchConditionsForPatient (.response 500 (some bundleZeroTotal10)) = [] ∧
    fetchLatestEncounters (.response 500 (some bundleZeroTotal10)) =
      fetchLatestEncounters (.response 404 (some bundleZeroTotal10)) := by decide

/-- C4 (as amended): on any HTTP error status, the seven critical data-access
functions propagate a distinguishable thrown error (`fetchPatientById` keeping
its dedicated not-found error at 404), while the two tolerated lookups
`fetchLatestEncounters` and `fetchConditionsForPatient` yield the empty list
for every error status — not only 404 — and `fetchPatientCount` yields the
sentinel `-1`. -/
theorem http_error_status_behaviour :
    ∀ (st : Nat) (cr : FetchResult Bundle) (body : Option Bundle)
      (rb : Option Resource) (id : String) (psArg : Option Int) (ps p : Int),
      respOk st = false →
      errorStatusBehaviour st cr body rb id psArg ps p := by
  intro st cr body rb id psArg ps p hne
  unfold errorStatusBehaviour
  refine ⟨?_, ?_, ?_, ?_, ?_, ?_, ?_, ?_, ?_, ?_, ?_⟩
  · simp [fetchPatients, hne]
  · simp [searchPatients, hne]
  · simp [createPatient, hne]
  · simp [fetchPatientById, hne, apply_ite]
  · simp [fetchConditionsForEncounter, getBundleEntries, hne]
  · simp [fetchAllConditions, hne]
  · simp [fetchAllConditions, getBundleEntries, hne]
  · simp [fetchOrganizations, getBundleEntries, hne]
  · unfold fetchLatestEncounters getBundleEntries404Empty
    dsimp only
    rw [hne]
    simp only [Bool.false_eq_true, if_false]
    split
    · rename_i l heq
      split at heq
      · exact (Except.ok.inj heq).symm
      · simp at heq
    · rfl
  · unfold fetchConditionsForPatient getBundleEntries404Empty
    dsimp only
    rw [hne]
    simp only [Bool.false_eq_true, if_false]
    split
    · rename_i l heq
      split at heq
      · exact (Except.ok.inj heq).symm
      · simp at heq
    · rfl
  · simp [fetchPatientCount, fetchPatientCountAttempt, hne]

/-- C4 witness at status 500. -/
theorem http_error_status_behaviour_witness :
    respOk 500 = false ∧
    errorStatusBehaviour 500 okEmptyBundle (some bundleZeroTotal10) (some 7) "p1"
      (some 10) 10 1 :=
  ⟨by decide,
   http_error_status_behaviour 500 okEmptyBundle (some bundleZeroTotal10) (some 7)
     "p1" (some 10) 10 1 (by decide)⟩

/-! ## Claim C6 -/

/-- C6 counterexample: on the first page the `_getpagesoffset` parameter is
`(1 − 1) × 25 = 0`, which is not a positive integer; and when `fetchPatients`
is called without a page size against a server whose count endpoint reports 0,
the resolved effective page size — and hence `_count` — is 0. -/
theorem pagination_params_zero_cases :
    fetchPatientsOffsetParam envScenario47 (some 25) 1 = 0 ∧
    ¬ (0 < (0 : Int)) ∧
    fetchPatientsCountParam envCountZero none = 0 := by decide

/-- C6 (as amended): both request builders send
`_count = pageSize` and `_getpagesoffset = (pageNumber − 1) × pageSize`; when
the caller supplies `pageSize > 0` and `pageNumber ≥ 1`, `_count` is positive
and the offset non-negative (zero on the first page). When `fetchPatients` is
called without a page size it first resolves one through the count endpoint
and uses that value as the effective page size for both `_count` and the
offset — a value that is positive only when the count endpoint reports a
positive total. -/
theorem pagination_request_params :
    (∀ (env : FhirEnv) (ps p : Int) (sortParam : String), 0 < ps → 1 ≤ p →
      fetchPatientsQuery env (some ps) p sortParam =
        [("_sort", sortParam), ("_count", toString ps),
         ("_getpagesoffset", toString ((p - 1) * ps)), ("_total", "accurate")] ∧
      0 ≤ (p - 1) * ps) ∧
    (∀ (sp : SearchParams) (ps p : Int) (sortParam : String), 0 < ps → 1 ≤ p →
      ("_count", toString ps) ∈ searchPatientsQuery sp ps p sortParam ∧
      ("_getpagesoffset", toString ((p - 1) * ps)) ∈ searchPatientsQuery sp ps p sortParam ∧
      0 ≤ (p - 1) * ps) ∧
    (∀ (env : FhirEnv) (p : Int),
      fetchPatientsCountParam env none = fetchPatientCount env.summaryCount ∧
      fetchPatientsOffsetParam env none p =
        (p - 1) * fetchPatientCount env.summaryCount) := by
  refine ⟨?_, ?_, ?_⟩
  · intro env ps p sortParam hps hp
    have hps0 : ps ≠ 0 := by omega
    constructor
    · simp [fetchPatientsQuery, fetchPatientsCountParam, fetchPatientsOffsetParam,
        effectivePageSize, hps0]
    · exact mul_nonneg (by omega) (by omega)
  · intro sp ps p sortParam hps hp
    refine ⟨?_, ?_, mul_nonneg (by omega) (by omega)⟩
    · exact List.mem_append_right _ (by simp)
    · exact List.mem_append_right _ (by simp)
  · intro env p
    exact ⟨rfl, rfl⟩

/-- C6 witness: a supplied page size 25 on page 1 yields `_count = "25"` and
`_getpagesoffset = "0"`. -/
theorem pagination_request_params_witness :
    (0 < (25 : Int)) ∧ (1 ≤ (1 : Int)) ∧
    (fetchPatientsQuery envScenario47 (some 25) 1 "-_lastUpdated" =
      [("_sort", "-_lastUpdated"), ("_count", toString (25 : Int)),
       ("_getpagesoffset", toString (((1 : Int) - 1) * 25)), ("_total", "accurate")] ∧
     0 ≤ ((1 : Int) - 1) * 25) :=
  ⟨by decide, by decide,
   pagination_request_params.1 envScenario47 25 1 "-_lastUpdated" (by decide) (by decide)⟩

/-! ## Claim C9 -/

/-- An absent or empty filter field contributes nothing to the query. -/
theorem appendIf_blank (key : String) {f : Option String} (h : blankField f) :
    appendIf key f = [] := by
  rcases h with h | h <;> subst h <;> rfl

/-- Every pair a filter field contributes carries a non-empty value. -/
theorem appendIf_value_ne_empty (key : String) (f : Option String) :
    ∀ kv ∈ appendIf key f, kv.2 ≠ "" := by
  cases f with
  | none => simp [appendIf]
  | some s =>
    by_cases hs : s = "" <;> simp [appendIf, hs]

/-- C9: when the search parameters carry only an identifier (every other
filter field absent or empty), the built query consists of exactly the
`identifier` key followed by the pagination/sort/total keys — no other filter
key appears; and, in general, no filter field is ever sent with an empty
value. -/
theorem identifier_only_search_query :
    (∀ (sp : SearchParams) (v : String) (ps p : Int) (sortParam : String),
      sp.identifier = some v → v ≠ "" →
      blankField sp.name → blankField sp.given → blankField sp.family →
      blankField sp.gender → blankField sp.birthdate → blankField sp.phone →
      blankField sp.email → blankField sp.address →
      (searchPatientsQuery sp ps p sortParam).map Prod.fst =
        ["identifier", "_count", "_getpagesoffset", "_sort", "_total"]) ∧
    (∀ (sp : SearchParams) (kv : String × String),
      kv ∈ searchFilterParams sp → kv.2 ≠ "") := by
  constructor
  · intro sp v ps p sortParam hid hv hn hg hf hge hb hph he ha
    unfold searchPatientsQuery searchFilterParams
    rw [appendIf_blank _ hn, appendIf_blank _ hg, appendIf_blank _ hf,
      appendIf_blank _ hge, appendIf_blank _ hb, appendIf_blank _ hph,
      appendIf_blank _ he, appendIf_blank _ ha, hid]
    simp [appendIf, hv]
  · intro sp kv h
    simp only [searchFilterParams, List.mem_append] at h
    rcases h with ((((((((h | h) | h) | h) | h) | h) | h) | h) | h) <;>
      exact appendIf_value_ne_empty _ _ _ h

/-- C9 witness: an identifier-only search builds exactly the five keys. -/
theorem identifier_only_search_query_witness :
    identifierOnlyParams.identifier = some "MRN-123" ∧ "MRN-123" ≠ "" ∧
    blankField identifierOnlyParams.name ∧ blankField identifierOnlyParams.given ∧
    blankField identifierOnlyParams.family ∧ blankField identifierOnlyParams.gender ∧
    blankField identifierOnlyParams.birthdate ∧ blankField identifierOnlyParams.phone ∧
    blankField identifierOnlyParams.email ∧ blankField identifierOnlyParams.address ∧
    (searchPatientsQuery identifierOnlyParams 100 1 "-_lastUpdated").map Prod.fst =
      ["identifier", "_count", "_getpagesoffset", "_sort", "_total"] :=
  ⟨rfl, by decide, Or.inl rfl, Or.inl rfl, Or.inl rfl, Or.inl rfl, Or.inl rfl,
   Or.inl rfl, Or.inl rfl, Or.inl rfl,
   identifier_only_search_query.1 identifierOnlyParams "MRN-123" 100 1 "-_lastUpdated"
     rfl (by decide) (Or.inl rfl) (Or.inl rfl) (Or.inl rfl) (Or.inl rfl) (Or.inl rfl)
     (Or.inl rfl) (Or.inl rfl) (Or.inl rfl)⟩

/-! ## Claim C7 -/

/-- A cached conditions entry survives any toggle. -/
theorem toggleEncounter_conditions_preserved
    (server : String → Except FhirError (List Resource)) (s : EncounterListState)
    (e id : String) (h : s.conditions id ≠ none) :
    (toggleEncounter server s e).1.conditions id ≠ none := by
  unfold toggleEncounter
  split
  · exact h
  · split
    · dsimp only
      by_cases he : id = e
      · simp [he]
      · simpa [he] using h
    · exact h

/-- A fetch is only issued for a row with no cached entry. -/
theorem toggleEncounter_fetch_implies_not_cached
    (server : String → Except FhirError (List Resource)) (s : EncounterListState)
    (e : String) (h : (toggleEncounter server s e).2 = true) :
    s.conditions e = none := by
  unfold toggleEncounter at h
  split at h
  · simp at h
  · split at h
    · rename_i hguard
      exact hguard.1
    · simp at h

/-- Once a row's conditions are cached, no later toggle sequence fetches that
row again. -/
theorem fetchCalls_count_zero_of_cached
    (server : String → Except FhirError (List Resource)) (trace : List String) :
    ∀ (s : EncounterListState) (id : String), s.conditions id ≠ none →
      (fetchCalls server s trace).count id = 0 := by
  induction trace with
  | nil => intro s id _; rfl
  | cons e rest ih =>
    intro s id h
    show ((if (toggleEncounter server s e).2 then [e] else []) ++
        fetchCalls server (toggleEncounter server s e).1 rest).count id = 0
    rw [List.count_append,
      ih (toggleEncounter server s e).1 id
        (toggleEncounter_conditions_preserved server s e id h)]
    by_cases hf : (toggleEncounter server s e).2 = true
    · rw [if_pos hf]
      have hne : id ≠ e := by
        intro hid
        subst hid
        exact h (toggleEncounter_fetch_implies_not_cached server s id hf)
      simp [List.count_cons, hne]
    · rw [if_neg hf]
      rfl

/-- No toggle leaves a row marked as loading (in the run-to-completion model
the `finally` clause has always reset it). -/
theorem toggleEncounter_loading_all_false
    (server : String → Except FhirError (List Resource)) (s : EncounterListState)
    (e : String) (h : ∀ k, s.loading k = false) :
    ∀ k, (toggleEncounter server s e).1.loading k = false := by
  intro k
  unfold toggleEncounter
  split
  · exact h k
  · split
    · dsimp only
      by_cases hk : k = e <;> simp [hk, h k]
    · exact h k

/-- Toggling one row never touches another row's cache. -/
theorem toggleEncounter_conditions_other
    (server : String → Except FhirError (List Resource)) (s : EncounterListState)
    (e id : String) (hne : id ≠ e) :
    (toggleEncounter server s e).1.conditions id = s.conditions id := by
  unfold toggleEncounter
  split
  · rfl
  · split
    · dsimp only
      simp [hne]
    · rfl

/-- After toggling row `e`, the expanded row is `e` or none — never a
different row. -/
theorem toggleEncounter_expanded_ne
    (server : String → Except FhirError (List Resource)) (s : EncounterListState)
    (e id : String) (hne : e ≠ id) :
    (toggleEncounter server s e).1.expandedEncounter ≠ some id := by
  unfold toggleEncounter
  split
  · simp
  · split
    · dsimp only
      simp [hne]
    · dsimp only
      simp [hne]

/-- From any state in which row `id` is not loading, not cached and not
currently expanded, a toggle trace fetches `id`'s conditions once if it ever
toggles `id`, and never otherwise. -/
theorem fetchCalls_count_from_clean
    (server : String → Except FhirError (List Resource)) (trace : List String) :
    ∀ (s : EncounterListState) (id : String),
      (∀ k, s.loading k = false) → s.conditions id = none →
      s.expandedEncounter ≠ some id →
      (fetchCalls server s trace).count id = if id ∈ trace then 1 else 0 := by
  induction trace with
  | nil => intro s id _ _ _; simp [fetchCalls]
  | cons e rest ih =>
    intro s id hload hcond hexp
    by_cases he : e = id
    · subst he
      have hfetch : toggleEncounter server s e =
          ({ expandedEncounter := some e
             conditions := fun k => if k = e then
                 some (match server e with | .ok l => l | .error _ => [])
               else s.conditions k
             loading := fun k => if k = e then false else s.loading k }, true) := by
        unfold toggleEncounter
        rw [if_neg hexp, if_pos ⟨hcond, hload e⟩]
      show ((if (toggleEncounter server s e).2 then [e] else []) ++
          fetchCalls server (toggleEncounter server s e).1 rest).count e =
        if e ∈ e :: rest then 1 else 0
      rw [hfetch]
      dsimp only
      rw [List.count_append,
        fetchCalls_count_zero_of_cached server rest _ e (by simp)]
      simp [List.count_cons]
    · have hne : id ≠ e := fun hh => he hh.symm
      show ((if (toggleEncounter server s e).2 then [e] else []) ++
          fetchCalls server (toggleEncounter server s e).1 rest).count id =
        if id ∈ e :: rest then 1 else 0
      rw [List.count_append,
        ih (toggleEncounter server s e).1 id
          (toggleEncounter_loading_all_false server s e hload)
          (by rw [toggleEncounter_conditions_other server s e id hne]; exact hcond)
          (toggleEncounter_expanded_ne server s e id he)]
      have hpre : (if (toggleEncounter server s e).2 then [e] else []).count id = 0 := by
        split
        · simp [List.count_cons, hne]
        · rfl
      rw [hpre]
      simp [List.mem_cons, hne]

/-- C7: across any sequence of expand/collapse toggles starting from the
freshly mounted `EncounterList`, the conditions fetch for a row is issued
exactly once when the row is ever toggled (its first toggle necessarily
expands it) and never otherwise: the first expansion fetches and caches, every
re-expansion hits the cache. -/
theorem conditions_fetched_exactly_once :
    ∀ (server : String → Except FhirError (List Resource)) (trace : List String)
      (id : String),
      (fetchCalls server initialEncounterListState trace).count id =
        if id ∈ trace then 1 else 0 := by
  intro server trace id
  exact fetchCalls_count_from_clean server trace initialEncounterListState id
    (fun _ => rfl) rfl (by simp [initialEncounterListState])

end FhirApp
